import Mathlib

/-!
Verification of the portfolio web application (app.py): the Cloudinary
media uploader, the Google-Sheet project writer and reader, the admin
submit handler, and the startup configuration check.

Strings model Python strings; a Python value that may be `None` or absent
is modelled as an `Option` or, where the code only tests truthiness, as a
`String` with `""` standing for absent/falsy.  Network effects are
modelled by passing the outcome of each external call as an explicit
parameter.
-/

namespace Portfolio

/-! ## Media uploader (`cloudinary_upload`) -/

/-- The `CLOUDINARY` secrets table.  Each field is the value of the
corresponding key, with `""` for an absent or empty entry (the code only
tests truthiness via `cloud.get(...)`). -/
structure CloudinaryCfg where
  cloud_name : String
  api_key : String
  api_secret : String
  upload_preset : String
deriving DecidableEq, Repr

/-- The HTTP request `cloudinary_upload` hands to `requests.post`:
the endpoint URL, the form data fields, and the optional basic-auth pair. -/
structure UploadRequest where
  url : String
  dataFields : List (String × String)
  auth : Option (String × String)
deriving DecidableEq, Repr

/-- The parsed JSON response body; `""` models an absent or empty field
(the code tests truthiness of `payload.get(...)`). -/
structure CloudPayload where
  secure_url : String
  url : String
deriving DecidableEq, Repr

/-- Outcome of the network call: a `requests` exception (unreachable
service, etc.) or a response with an HTTP status and parsed JSON body. -/
inductive NetResult where
  | netError (msg : String)
  | response (status : Nat) (payload : CloudPayload)
deriving DecidableEq, Repr

/-- The value `cloudinary_upload` returns on the non-raising path:
`payload.get("secure_url") or payload.get("url") or payload`. -/
inductive UploadValue where
  | urlStr (s : String)
  | payloadValue (p : CloudPayload)
deriving DecidableEq, Repr

/-- The request constructed by `cloudinary_upload` from the config:
`upload_preset` and `api_key` go into the form data when truthy, and
basic auth `(api_key, api_secret)` is attached exactly when `api_secret`
is truthy. -/
def cloudinary_request (cloud : CloudinaryCfg) : UploadRequest :=
  { url := "https://api.cloudinary.com/v1_1/" ++ cloud.cloud_name ++ "/auto/upload"
    dataFields :=
      (if cloud.upload_preset ≠ "" then [("upload_preset", cloud.upload_preset)] else [])
        ++ (if cloud.api_key ≠ "" then [("api_key", cloud.api_key)] else [])
    auth := if cloud.api_secret ≠ "" then some (cloud.api_key, cloud.api_secret) else none }

/-- `cloudinary_upload`, with the network modelled by `net`: raises
(`Except.error`) on a missing cloud name, on a `requests` exception, and
on a 4xx/5xx status (`res.raise_for_status()`); otherwise returns
`payload.get("secure_url") or payload.get("url") or payload`. -/
def cloudinary_upload (cloud : CloudinaryCfg) (net : UploadRequest → NetResult) :
    Except String UploadValue :=
  if cloud.cloud_name = "" then
    .error "Cloudinary not configured (cloud_name missing in secrets)."
  else
    match net (cloudinary_request cloud) with
    | .netError m => .error ("Cloudinary upload failed: " ++ m)
    | .response status payload =>
        if 400 ≤ status then .error ("Cloudinary upload failed: HTTP " ++ toString status)
        else if payload.secure_url ≠ "" then .ok (.urlStr payload.secure_url)
        else if payload.url ≠ "" then .ok (.urlStr payload.url)
        else .ok (.payloadValue payload)

/-! ## Project writer (`add_project_to_sheet`) -/

/-- Python `x or ""` applied to an optional string argument. -/
def orEmpty : Option String → String
  | none => ""
  | some s => s

/-- The documented column schema of the worksheet. -/
def sheetHeader : List String :=
  ["Title", "Description", "Link", "MediaURL", "MediaType", "CreatedAt"]

/-- The row `add_project_to_sheet` builds and appends:
`[title, description, link or "", media_url or "", media_type or "", now]`,
where `now` is `datetime.utcnow().isoformat()` taken at call time. -/
def add_project_to_sheet (title description : String)
    (link media_url media_type : Option String) (now : String) : List String :=
  [title, description, orEmpty link, orEmpty media_url, orEmpty media_type, now]

/-- `ws.append_row(row)`: the worksheet grows by exactly this one row. -/
def appendToSheet (sheet : List (List String)) (row : List String) : List (List String) :=
  sheet ++ [row]

/-! ## Gallery reader (`read_projects_from_sheet`) -/

/-- Insertion into a Python dict rendered as an association list:
if the key is present its value is replaced in place, otherwise the pair
is appended.  This is the semantics of repeated assignment in the dict
comprehension `{header[i]: ... for i in range(len(header))}`. -/
def pyDictInsert (d : List (String × String)) (k v : String) : List (String × String) :=
  if d.any (fun p => p.1 = k) then
    d.map (fun p => if p.1 = k then (k, v) else p)
  else
    d ++ [(k, v)]

/-- The dict comprehension after processing indices `0, …, m-1`:
each step assigns `header[i] ↦ (r[i] if i < len(r) else "")`. -/
def recordUpTo (header row : List String) (m : Nat) : List (String × String) :=
  (List.range m).foldl
    (fun d i => pyDictInsert d (header.getD i "") (row.getD i "")) []

/-- The record built for one data row:
`{header[i]: (r[i] if i < len(r) else "") for i in range(len(header))}`. -/
def rowToRecord (header row : List String) : List (String × String) :=
  recordUpTo header row header.length

/-- The greatest `i < m` with `header[i] = k`, if any (used to describe
which cell a repeated dict assignment leaves behind for key `k`). -/
def lastIdxBefore (header : List String) (k : String) (m : Nat) : Option Nat :=
  (List.range m).foldl (fun acc i => if header.getD i "" = k then some i else acc) none

/-- `read_projects_from_sheet` on the full cell grid: empty unless at
least a header row and one data row exist; otherwise each data row is
mapped to a record and the list is reversed (`projects[::-1]`). -/
def read_projects_from_sheet (rows : List (List String)) :
    List (List (String × String)) :=
  if rows.isEmpty ∨ rows.length < 2 then []
  else ((rows.drop 1).map (rowToRecord (rows.headD []))).reverse

/-! ## Admin submit handler (module top level, `if submitted:`) -/

/-- An uploaded file as the handler sees it: `media.name`, `media.type`
(with `""` for a falsy type) and `media.size` in bytes. -/
structure MediaFile where
  name : String
  mime : String
  size : Nat
deriving DecidableEq, Repr

/-- Outcome of `media.read()`. -/
inductive ReadOutcome where
  | ok
  | fail (msg : String)
deriving DecidableEq, Repr

/-- Outcome of `cloudinary_upload(bytes_data, media.name)`. -/
inductive UploadOutcome where
  | ok (url : String)
  | fail (msg : String)
deriving DecidableEq, Repr

/-- Outcome of `add_project_to_sheet(...)`. -/
inductive AppendOutcome where
  | ok
  | fail (msg : String)
deriving DecidableEq, Repr

/-- Observable effects of one submission: the error and success messages
shown, whether `cloudinary_upload` was invoked, and the argument tuple
`(title, desc, link, media_url, media_type)` passed to
`add_project_to_sheet` (`none` when it was never invoked). -/
structure SubmitTrace where
  errorMsgs : List String
  successMsgs : List String
  uploadCalled : Bool
  addCalled : Option (String × String × String × String × String)
deriving DecidableEq, Repr

/-- The admin submit handler (the `if submitted:` block), with the
outcomes of the three external effects passed in as parameters. -/
def handleSubmit (title desc link : String) (media : Option MediaFile)
    (readRes : ReadOutcome) (uploadRes : UploadOutcome) (appendRes : AppendOutcome) :
    SubmitTrace :=
  if title = "" then
    { errorMsgs := ["Title is required."], successMsgs := []
      uploadCalled := false, addCalled := none }
  else
    let mediaPhase :
        List String × List String × Bool × String × String :=
      match media with
      | none => ([], [], false, "", "")
      | some m =>
        if m.size ≠ 0 ∧ m.size > 25 * 1024 * 1024 then
          (["File too large. Please upload files <= 25 MB."], [], false, "", "")
        else
          match readRes with
          | .fail e => (["Failed reading uploaded file: " ++ e], [], false, "", "")
          | .ok =>
            match uploadRes with
            | .ok u =>
                ([], ["Uploaded media to Cloudinary."], true, u, m.mime)
            | .fail e =>
                (["Failed to upload media: " ++ e], [], true, "", m.mime)
    match mediaPhase with
    | (preErr, preOk, upCalled, media_url, media_type) =>
      match appendRes with
      | .ok =>
          { errorMsgs := preErr
            successMsgs := preOk ++ ["Project '" ++ title ++ "' added."]
            uploadCalled := upCalled
            addCalled := some (title, desc, link, media_url, media_type) }
      | .fail e =>
          { errorMsgs := preErr ++ ["Failed to save project metadata: " ++ e]
            successMsgs := preOk
            uploadCalled := upCalled
            addCalled := some (title, desc, link, media_url, media_type) }

/-! ## Startup configuration check (module level) -/

/-- The secrets store: the `CLOUDINARY` and `GSHEET` tables (key-value
lists, `[]` when absent, matching `st.secrets.get(name, {})`), and the
optional `ADMIN_PASSWORD` and `GCP_SERVICE_ACCOUNT` entries. -/
structure Secrets where
  cloudinary : List (String × String)
  gsheet : List (String × String)
  admin_password : Option String
  gcp_sa : Option String
deriving DecidableEq, Repr

/-- The module-level config check:
`if not CLOUDINARY or not GSHEET: st.error(...); st.stop()` — the app
halts at startup exactly when one of the two tables is empty. -/
def startupHalts (s : Secrets) : Bool :=
  s.cloudinary.isEmpty || s.gsheet.isEmpty

/-! ## Helper lemmas about the dict model -/

theorem lookup_cons_eq (a b k' : String) (r : List (String × String)) :
    ((a, b) :: r).lookup k' = if k' = a then some b else r.lookup k' := by
  rw [List.lookup_cons]
  by_cases h : k' = a
  · rw [if_pos h, beq_iff_eq.mpr h]
  · rw [if_neg h, beq_false_of_ne h]

theorem lookup_replace_ne (t : List (String × String)) (k v k' : String) (h : k' ≠ k) :
    (t.map (fun p => if p.1 = k then (k, v) else p)).lookup k' = t.lookup k' := by
  induction t with
  | nil => rfl
  | cons q r ih =>
    obtain ⟨a, b⟩ := q
    by_cases hq : a = k
    · simp only [List.map_cons, if_pos hq, lookup_cons_eq]
      rw [if_neg h, if_neg (fun e => h (e.trans hq)), ih]
    · simp only [List.map_cons, if_neg hq, lookup_cons_eq]
      by_cases hk' : k' = a
      · rw [if_pos hk', if_pos hk']
      · rw [if_neg hk', if_neg hk', ih]

theorem lookup_map_replace_self (t : List (String × String)) (k v : String)
    (h : t.any (fun p => p.1 = k) = true) :
    (t.map (fun p => if p.1 = k then (k, v) else p)).lookup k = some v := by
  induction t with
  | nil => simp at h
  | cons q r ih =>
    obtain ⟨a, b⟩ := q
    by_cases hq : a = k
    · simp [if_pos hq, lookup_cons_eq]
    · simp only [List.any_cons, Bool.or_eq_true, decide_eq_true_eq] at h
      rcases h with h | h
      · exact absurd h hq
      · simp only [List.map_cons, if_neg hq, lookup_cons_eq]
        rw [if_neg (fun e => hq e.symm)]
        exact ih h

theorem lookup_not_found (d : List (String × String)) (k : String)
    (h : d.any (fun p => p.1 = k) = false) : d.lookup k = none := by
  induction d with
  | nil => rfl
  | cons q r ih =>
    obtain ⟨a, b⟩ := q
    simp only [List.any_cons, Bool.or_eq_false_iff, decide_eq_false_iff_not] at h
    rw [lookup_cons_eq, if_neg (fun e => h.1 e.symm)]
    exact ih (by simp [h.2])

theorem lookup_pyDictInsert_self (d : List (String × String)) (k v : String) :
    (pyDictInsert d k v).lookup k = some v := by
  unfold pyDictInsert
  split
  · case isTrue hany => exact lookup_map_replace_self d k v hany
  · case isFalse hany =>
    have hfalse : d.any (fun p => p.1 = k) = false := by
      cases hval : d.any (fun p => p.1 = k)
      · rfl
      · exact absurd hval hany
    rw [List.lookup_append, lookup_not_found d k hfalse]
    simp [lookup_cons_eq]

theorem lookup_pyDictInsert_ne (d : List (String × String)) (k v k' : String)
    (h : k' ≠ k) : (pyDictInsert d k v).lookup k' = d.lookup k' := by
  unfold pyDictInsert
  split
  · exact lookup_replace_ne d k v k' h
  · rw [List.lookup_append]
    cases hd : d.lookup k' with
    | some w => rfl
    | none =>
      simp only [Option.none_or]
      rw [lookup_cons_eq, if_neg h]
      rfl

theorem recordUpTo_succ (header row : List String) (m : Nat) :
    recordUpTo header row (m + 1) =
      pyDictInsert (recordUpTo header row m) (header.getD m "") (row.getD m "") := by
  unfold recordUpTo
  rw [List.range_succ, List.foldl_append]
  rfl

theorem lastIdxBefore_succ (header : List String) (k : String) (m : Nat) :
    lastIdxBefore header k (m + 1) =
      if header.getD m "" = k then some m else lastIdxBefore header k m := by
  unfold lastIdxBefore
  rw [List.range_succ, List.foldl_append]
  rfl

theorem lookup_recordUpTo (header row : List String) (m : Nat) (k : String) :
    (recordUpTo header row m).lookup k =
      (lastIdxBefore header k m).map (fun i => row.getD i "") := by
  induction m with
  | zero => rfl
  | succ n ih =>
    rw [recordUpTo_succ, lastIdxBefore_succ]
    by_cases h : header.getD n "" = k
    · rw [if_pos h, h, lookup_pyDictInsert_self]
      rfl
    · rw [if_neg h, lookup_pyDictInsert_ne _ _ _ _ (fun e => h e.symm)]
      exact ih

theorem lastIdxBefore_ge (header : List String) (k : String) (m i : Nat)
    (hi : i < m) (hk : header.getD i "" = k) :
    ∃ j, lastIdxBefore header k m = some j ∧ i ≤ j ∧ j < m ∧ header.getD j "" = k := by
  induction m with
  | zero => omega
  | succ n ih =>
    rw [lastIdxBefore_succ]
    by_cases h : header.getD n "" = k
    · exact ⟨n, by rw [if_pos h], by omega, by omega, h⟩
    · rw [if_neg h]
      have hin : i < n := by
        rcases Nat.lt_succ_iff_lt_or_eq.mp hi with h' | h'
        · exact h'
        · exact absurd (h' ▸ hk) h
      obtain ⟨j, hj, hij, hjn, hjk⟩ := ih hin
      exact ⟨j, hj, hij, by omega, hjk⟩

theorem lastIdxBefore_isSome (header : List String) (k : String) (m j : Nat)
    (hj : lastIdxBefore header k m = some j) : j < m ∧ header.getD j "" = k := by
  induction m with
  | zero => simp [lastIdxBefore] at hj
  | succ n ih =>
    rw [lastIdxBefore_succ] at hj
    by_cases h : header.getD n "" = k
    · rw [if_pos h] at hj
      injection hj with hnj
      exact ⟨by omega, hnj ▸ h⟩
    · rw [if_neg h] at hj
      obtain ⟨h1, h2⟩ := ih hj
      exact ⟨by omega, h2⟩

theorem lastIdxBefore_isSome_iff (header : List String) (k : String) :
    (lastIdxBefore header k header.length).isSome ↔ k ∈ header := by
  constructor
  · intro h
    obtain ⟨j, hj⟩ := Option.isSome_iff_exists.mp h
    obtain ⟨hjm, hjk⟩ := lastIdxBefore_isSome header k header.length j hj
    rw [List.getD_eq_getElem?_getD, List.getElem?_eq_getElem hjm] at hjk
    exact List.mem_iff_getElem.mpr ⟨j, hjm, hjk⟩
  · intro hk
    obtain ⟨j, hjlt, hjk⟩ := List.mem_iff_getElem.mp hk
    have hgd : header.getD j "" = k := by
      rw [List.getD_eq_getElem?_getD, List.getElem?_eq_getElem hjlt]
      exact hjk
    obtain ⟨j', hj', _⟩ := lastIdxBefore_ge header k header.length j hjlt hgd
    simp [hj']

theorem recordUpTo_take (header row : List String) (m : Nat) (hm : m ≤ header.length) :
    recordUpTo header row m = recordUpTo header (row.take header.length) m := by
  induction m with
  | zero => rfl
  | succ n ih =>
    rw [recordUpTo_succ, recordUpTo_succ, ih (by omega)]
    have hcell : (row.take header.length).getD n "" = row.getD n "" := by
      rw [List.getD_eq_getElem?_getD, List.getD_eq_getElem?_getD,
        List.getElem?_take_of_lt (by omega)]
    rw [hcell]

/-! ## Claims -/

/-- Claim C5: for every sheet with fewer than 2 rows (only a header row,
or no rows at all), `read_projects_from_sheet` returns an empty sequence
and does not raise an error. -/
theorem claim_C5 (rows : List (List String)) (h : rows.length < 2) :
    read_projects_from_sheet rows = [] := by
  unfold read_projects_from_sheet
  rw [if_pos (Or.inr h)]

theorem claim_C5_witness :
    ([["Title", "Description"]] : List (List String)).length < 2 ∧
      read_projects_from_sheet [["Title", "Description"]] = [] :=
  ⟨by decide, claim_C5 [["Title", "Description"]] (by decide)⟩

/-- Claim C4: for every sheet contents, the sequence of records returned
by `read_projects_from_sheet` is exactly the reverse of the data-row
order: the record at output position `i` comes from the sheet row at
index `rows.length - 1 - i` (so the last appended row is the first
record returned). -/
theorem claim_C4 (rows : List (List String)) (i : Nat)
    (h2 : 2 ≤ rows.length) (hi : i + 2 ≤ rows.length) :
    (read_projects_from_sheet rows)[i]? =
      (rows[rows.length - 1 - i]?).map (rowToRecord (rows.headD [])) := by
  have hcond : ¬(rows.isEmpty = true ∨ rows.length < 2) := by
    rintro (h | h)
    · rw [List.isEmpty_iff] at h
      subst h
      simp at h2
    · omega
  unfold read_projects_from_sheet
  rw [if_neg hcond]
  have hlen : i < ((rows.drop 1).map (rowToRecord (rows.headD []))).length := by
    rw [List.length_map, List.length_drop]
    omega
  rw [List.getElem?_reverse hlen, List.getElem?_map, List.getElem?_drop]
  have hidx : 1 + (((rows.drop 1).map (rowToRecord (rows.headD []))).length - 1 - i)
      = rows.length - 1 - i := by
    rw [List.length_map, List.length_drop]
    omega
  rw [hidx]

theorem claim_C4_witness :
    2 ≤ ([["Title"], ["a"], ["b"]] : List (List String)).length ∧
    0 + 2 ≤ ([["Title"], ["a"], ["b"]] : List (List String)).length ∧
    (read_projects_from_sheet [["Title"], ["a"], ["b"]])[0]? =
      (([["Title"], ["a"], ["b"]] : List (List String))[3 - 1 - 0]?).map
        (rowToRecord (([["Title"], ["a"], ["b"]] : List (List String)).headD [])) :=
  ⟨by decide, by decide, claim_C4 [["Title"], ["a"], ["b"]] 0 (by decide) (by decide)⟩

/-- Claim C7: for every admin form submission whose title is empty, the
submission is rejected with an error message and no external call is
made: `cloudinary_upload` is not invoked and `add_project_to_sheet` is
not invoked. -/
theorem claim_C7 (desc link : String) (media : Option MediaFile)
    (r : ReadOutcome) (u : UploadOutcome) (a : AppendOutcome) :
    (handleSubmit "" desc link media r u a).uploadCalled = false ∧
    (handleSubmit "" desc link media r u a).addCalled = none ∧
    (handleSubmit "" desc link media r u a).errorMsgs = ["Title is required."] := by
  unfold handleSubmit
  simp

/-- Claim C6: for every data row shorter than the header row,
`read_projects_from_sheet` maps the row (by positional alignment with
the header) to a record that appears in its output, and every field
whose cell is missing — header index at or beyond the row's length — is
the empty string. -/
theorem claim_C6 (rows : List (List String)) (r : List String) (i : Nat)
    (h2 : 2 ≤ rows.length) (hr : r ∈ rows.drop 1)
    (hlen : r.length ≤ i) (hi : i < (rows.headD []).length) :
    rowToRecord (rows.headD []) r ∈ read_projects_from_sheet rows ∧
    (rowToRecord (rows.headD []) r).lookup ((rows.headD []).getD i "") = some "" := by
  constructor
  · have hcond : ¬(rows.isEmpty = true ∨ rows.length < 2) := by
      rintro (h | h)
      · rw [List.isEmpty_iff] at h
        subst h
        simp at h2
      · omega
    unfold read_projects_from_sheet
    rw [if_neg hcond, List.mem_reverse]
    exact List.mem_map.mpr ⟨r, hr, rfl⟩
  · obtain ⟨j, hj, hij, hjm, hjk⟩ :=
      lastIdxBefore_ge (rows.headD []) ((rows.headD []).getD i "")
        (rows.headD []).length i hi rfl
    rw [rowToRecord, lookup_recordUpTo, hj]
    have hrj : r[j]? = none := List.getElem?_eq_none (le_trans hlen hij)
    simp [List.getD_eq_getElem?_getD, hrj]

theorem claim_C6_witness :
    2 ≤ ([["A", "B"], ["x"]] : List (List String)).length ∧
    (["x"] : List String) ∈ ([["A", "B"], ["x"]] : List (List String)).drop 1 ∧
    (["x"] : List String).length ≤ 1 ∧
    1 < (([["A", "B"], ["x"]] : List (List String)).headD []).length ∧
    rowToRecord (([["A", "B"], ["x"]] : List (List String)).headD []) ["x"] ∈
      read_projects_from_sheet [["A", "B"], ["x"]] ∧
    (rowToRecord (([["A", "B"], ["x"]] : List (List String)).headD []) ["x"]).lookup
        ((([["A", "B"], ["x"]] : List (List String)).headD []).getD 1 "") = some "" := by
  refine ⟨by decide, by decide, by decide, by decide, ?_, ?_⟩
  · exact (claim_C6 [["A", "B"], ["x"]] ["x"] 1 (by decide) (by decide)
      (by decide) (by decide)).1
  · exact (claim_C6 [["A", "B"], ["x"]] ["x"] 1 (by decide) (by decide)
      (by decide) (by decide)).2

/-- Claim C10: for every data row (in particular rows longer than the
header), the record contains exactly the header's field names as keys —
a lookup succeeds precisely for header names — and extra trailing cells
are ignored: the record depends only on the first `header.length` cells
of the row. -/
theorem claim_C10 (header row : List String) (k : String) :
    (((rowToRecord header row).lookup k).isSome ↔ k ∈ header) ∧
    rowToRecord header row = rowToRecord header (row.take header.length) := by
  constructor
  · rw [rowToRecord, lookup_recordUpTo, ← lastIdxBefore_isSome_iff header k]
    cases lastIdxBefore header k header.length <;> simp
  · exact recordUpTo_take header row header.length le_rfl

/-- Claim C8: `add_project_to_sheet` appends exactly one row — the sheet
grows by one and the new row is last — of six cells in the schema order
Title, Description, Link, MediaURL, MediaType, CreatedAt, where the
CreatedAt cell is the UTC timestamp `now` taken at call time and each
absent optional field (`link`, `media_url`, `media_type`) is written as
`""` (`orEmpty none = ""`). -/
theorem claim_C8 (sheet : List (List String)) (title description : String)
    (link media_url media_type : Option String) (now : String) :
    (appendToSheet sheet (add_project_to_sheet title description link media_url media_type now)).length
        = sheet.length + 1 ∧
    (appendToSheet sheet (add_project_to_sheet title description link media_url media_type now)).getLast?
        = some (add_project_to_sheet title description link media_url media_type now) ∧
    (add_project_to_sheet title description link media_url media_type now).length
        = sheetHeader.length ∧
    add_project_to_sheet title description link media_url media_type now
        = [title, description, orEmpty link, orEmpty media_url, orEmpty media_type, now] ∧
    (add_project_to_sheet title description link media_url media_type now)[5]? = some now ∧
    orEmpty none = "" := by
  refine ⟨?_, ?_, rfl, rfl, rfl, rfl⟩
  · simp [appendToSheet]
  · simp [appendToSheet]

/-- Claim C9 counterexample: a secrets store with both the `CLOUDINARY`
and `GSHEET` tables present but with no `ADMIN_PASSWORD` and no
`GCP_SERVICE_ACCOUNT` does not halt startup, refuting the claim that the
absence of any required configuration item (including the admin password
and the service-account blob) halts the application at startup. -/
theorem claim_C9_counterexample :
    (Secrets.mk [("cloud_name", "demo"), ("api_key", "key123")]
        [("sheet_id", "sid"), ("worksheet_name", "Sheet1")] none none).admin_password = none ∧
    (Secrets.mk [("cloud_name", "demo"), ("api_key", "key123")]
        [("sheet_id", "sid"), ("worksheet_name", "Sheet1")] none none).gcp_sa = none ∧
    startupHalts (Secrets.mk [("cloud_name", "demo"), ("api_key", "key123")]
        [("sheet_id", "sid"), ("worksheet_name", "Sheet1")] none none) = false := by
  decide

/-- Claim C9 (amended): startup halts exactly when the `CLOUDINARY`
table or the `GSHEET` table is absent/empty; the admin password and the
service-account blob are not checked at startup, so their absence does
not halt the application. -/
theorem claim_C9_amended (s : Secrets) (p g : Option String) :
    (startupHalts s = true ↔ (s.cloudinary = [] ∨ s.gsheet = [])) ∧
    startupHalts { s with admin_password := p, gcp_sa := g } = startupHalts s := by
  constructor
  · simp [startupHalts, List.isEmpty_iff]
  · rfl

/-- A config with an unsigned-upload preset AND an api secret, used to
separate the two candidate auth-selection rules. -/
def cfgPresetAndSecret : CloudinaryCfg :=
  { cloud_name := "demo", api_key := "key123", api_secret := "sec456"
    upload_preset := "unsigned1" }

/-- A signed config: api secret present, no upload preset. -/
def cfgSigned : CloudinaryCfg :=
  { cloud_name := "demo", api_key := "key123", api_secret := "sec456"
    upload_preset := "" }

/-- An unsigned config: upload preset present, no api secret. -/
def cfgUnsigned : CloudinaryCfg :=
  { cloud_name := "demo", api_key := "key123", api_secret := ""
    upload_preset := "unsigned1" }

/-- Claim C3 counterexample: with an unsigned-upload preset configured
but an api secret also present, the request is sent WITH HTTP basic-auth
credentials, refuting the claim that a configured upload preset selects
the unauthenticated mode. -/
theorem claim_C3_counterexample :
    cfgPresetAndSecret.upload_preset ≠ "" ∧
    (cloudinary_request cfgPresetAndSecret).auth = some ("key123", "sec456") := by
  decide

/-- Claim C3 (amended): the authentication mode is selected by the api
secret, not by the upload preset: the request carries basic-auth
credentials `(api_key, api_secret)` exactly when `api_secret` is
configured; the upload preset only contributes a form-data field. -/
theorem claim_C3_amended (cloud : CloudinaryCfg) :
    ((cloudinary_request cloud).auth = none ↔ cloud.api_secret = "") ∧
    (cloud.api_secret ≠ "" →
      (cloudinary_request cloud).auth = some (cloud.api_key, cloud.api_secret)) ∧
    (cloud.upload_preset ≠ "" →
      ("upload_preset", cloud.upload_preset) ∈ (cloudinary_request cloud).dataFields) := by
  unfold cloudinary_request
  by_cases h : cloud.api_secret = "" <;> by_cases h2 : cloud.upload_preset = "" <;>
    simp [h, h2]

theorem claim_C3_amended_witness :
    (cloudinary_request cfgSigned).auth = some (cfgSigned.api_key, cfgSigned.api_secret) :=
  (claim_C3_amended cfgSigned).2.1 (by decide)

/-- A network behaviour that answers every request with HTTP 200 and a
JSON body containing neither a `secure_url` nor a `url` field. -/
def netEmptyPayload : UploadRequest → NetResult :=
  fun _ => .response 200 ⟨"", ""⟩

/-- A network behaviour that answers every request with HTTP 200 and a
body whose `secure_url` field is set. -/
def netSecure : UploadRequest → NetResult :=
  fun _ => .response 200 ⟨"https://res.cloudinary.com/demo/img.png", ""⟩

/-- Claim C2 counterexample: on a success status whose JSON body lacks
both `secure_url` and `url`, `cloudinary_upload` does not propagate an
error — it returns the raw parsed payload (a non-URL value), refuting
the claim that it never returns a non-URL value. -/
theorem claim_C2_counterexample :
    cloudinary_upload cfgUnsigned netEmptyPayload
        = .ok (.payloadValue ⟨"", ""⟩) ∧
    (cloudinary_upload cfgUnsigned netEmptyPayload).isOk = true :=
  ⟨rfl, rfl⟩

/-- Claim C2 (amended): `cloudinary_upload` propagates an error when the
service is unreachable or the HTTP status is non-success, and on success
returns the `secure_url` field, falling back to the `url` field; but
when the response JSON lacks both usable URL fields it returns the raw
parsed payload object (a non-URL value) instead of propagating an
error. -/
theorem claim_C2_amended (cloud : CloudinaryCfg) (net : UploadRequest → NetResult)
    (hname : cloud.cloud_name ≠ "") :
    (∀ m, net (cloudinary_request cloud) = .netError m →
      cloudinary_upload cloud net = .error ("Cloudinary upload failed: " ++ m)) ∧
    (∀ st p, net (cloudinary_request cloud) = .response st p → 400 ≤ st →
      cloudinary_upload cloud net
        = .error ("Cloudinary upload failed: HTTP " ++ toString st)) ∧
    (∀ st p, net (cloudinary_request cloud) = .response st p → st < 400 →
      p.secure_url ≠ "" →
      cloudinary_upload cloud net = .ok (.urlStr p.secure_url)) ∧
    (∀ st p, net (cloudinary_request cloud) = .response st p → st < 400 →
      p.secure_url = "" → p.url ≠ "" →
      cloudinary_upload cloud net = .ok (.urlStr p.url)) ∧
    (∀ st p, net (cloudinary_request cloud) = .response st p → st < 400 →
      p.secure_url = "" → p.url = "" →
      cloudinary_upload cloud net = .ok (.payloadValue p)) := by
  refine ⟨?_, ?_, ?_, ?_, ?_⟩
  · intro m h
    unfold cloudinary_upload
    rw [if_neg hname, h]
  · intro st p h hst
    unfold cloudinary_upload
    rw [if_neg hname, h]
    simp only [if_pos hst]
  · intro st p h hst hs
    unfold cloudinary_upload
    rw [if_neg hname, h]
    simp only [if_neg (show ¬400 ≤ st by omega), if_pos hs]
  · intro st p h hst hs hu
    unfold cloudinary_upload
    rw [if_neg hname, h]
    simp only [if_neg (show ¬400 ≤ st by omega), if_neg (not_not.mpr hs), if_pos hu]
  · intro st p h hst hs hu
    unfold cloudinary_upload
    rw [if_neg hname, h]
    simp only [if_neg (show ¬400 ≤ st by omega), if_neg (not_not.mpr hs),
      if_neg (not_not.mpr hu)]

theorem claim_C2_amended_witness :
    cloudinary_upload cfgSigned netSecure
      = .ok (.urlStr "https://res.cloudinary.com/demo/img.png") :=
  (claim_C2_amended cfgSigned netSecure (by decide)).2.2.1 200
    ⟨"https://res.cloudinary.com/demo/img.png", ""⟩ rfl (by omega) (by decide)

/-- Claim C1 counterexample: on an upload failure for a file whose
reported MIME type is `"image/png"`, the record passed to
`add_project_to_sheet` has `mediaURL = ""` but `mediaType = "image/png"`
(the type was set before the upload attempt and is not cleared), so the
record is NOT saved with both media fields empty. -/
theorem claim_C1_counterexample :
    (handleSubmit "t" "d" "l" (some ⟨"f.png", "image/png", 100⟩)
        .ok (.fail "HTTP 400 returned") .ok).addCalled
      = some ("t", "d", "l", "", "image/png") ∧
    (handleSubmit "t" "d" "l" (some ⟨"f.png", "image/png", 100⟩)
        .ok (.fail "HTTP 400 returned") .ok).addCalled
      ≠ some ("t", "d", "l", "", "") := by
  decide

/-- Claim C1 (amended): for every admin submission with a non-empty
title and an attached media file (within the size limit, readable) whose
upload fails, `add_project_to_sheet` is still invoked and the record is
saved with `mediaURL = ""` but with `mediaType` equal to the file's
reported MIME type (not cleared); the admin is shown an upload-failed
message. -/
theorem claim_C1_amended (title desc link : String) (m : MediaFile) (msg : String)
    (a : AppendOutcome) (ht : title ≠ "")
    (hsize : ¬(m.size ≠ 0 ∧ m.size > 25 * 1024 * 1024)) :
    (handleSubmit title desc link (some m) .ok (.fail msg) a).addCalled
        = some (title, desc, link, "", m.mime) ∧
    ("Failed to upload media: " ++ msg)
        ∈ (handleSubmit title desc link (some m) .ok (.fail msg) a).errorMsgs := by
  unfold handleSubmit
  rw [if_neg ht]
  simp only [if_neg hsize]
  cases a <;> simp

theorem claim_C1_amended_witness :
    (handleSubmit "Chatbot Demo" "A simple chatbot" "https://x.test"
        (some ⟨"demo.png", "image/png", 2048⟩) .ok (.fail "HTTP 400") .ok).addCalled
      = some ("Chatbot Demo", "A simple chatbot", "https://x.test", "", "image/png") ∧
    ("Failed to upload media: " ++ "HTTP 400")
      ∈ (handleSubmit "Chatbot Demo" "A simple chatbot" "https://x.test"
          (some ⟨"demo.png", "image/png", 2048⟩) .ok (.fail "HTTP 400") .ok).errorMsgs :=
  claim_C1_amended "Chatbot Demo" "A simple chatbot" "https://x.test"
    ⟨"demo.png", "image/png", 2048⟩ "HTTP 400" .ok (by decide) (by decide)

end Portfolio
